import Mathlib

/-!
Verification development for the kg-inference repository.

Strings from the Python source are modelled as `List Char` (`Str`).
Third-party library calls (PyYAML, linkml loaders, owlready2 parsing and
the HermiT reasoner) are modelled as oracle parameters, following the
spec's scoping: only the contract the system has with those libraries is
in scope, never their internal inference algorithms.
-/

set_option maxRecDepth 4000

namespace KGInference

/-- Strings are modelled as lists of characters. -/
abbrev Str := List Char

/-- The backtick character (0x60), written via its code point. -/
def btick : Char := Char.ofNat 96

/-- ASCII model of Python's whitespace class (str.strip and regex \s):
space, tab, newline, carriage return, vertical tab, form feed. -/
def isPyWs (c : Char) : Bool :=
  decide (c = ' ' ∨ c = '\t' ∨ c = '\n' ∨ c = '\r' ∨ c = Char.ofNat 11 ∨ c = Char.ofNat 12)

/-- Python str.strip(): drop whitespace from both ends. -/
def pyStrip (s : Str) : Str :=
  ((s.dropWhile isPyWs).reverse.dropWhile isPyWs).reverse

/-- The three-backtick fence delimiter. -/
def fence3 : Str := [btick, btick, btick]

/-- Scan for the first occurrence of a three-backtick fence.  Returns the
text before the fence and the text after it.  Mirrors the leftmost-match
search of Python's regex engine for the literal part of the fence pattern
in src/src/tools.py line 410. -/
def splitAtFence : Str → Option (Str × Str)
  | [] => none
  | c :: rest =>
    if (c :: rest).take 3 = fence3 then some ([], rest.drop 2)
    else (splitAtFence rest).map (fun pq => (c :: pq.1, pq.2))

/-- The optional language tags accepted by the fence regex
(?:xml|owl|rdf)?, stored lowercase; matching is case-insensitive. -/
def tagWords : List Str := [("xml").data, ("owl").data, ("rdf").data]

/-- Consume an optional case-insensitive xml/owl/rdf tag after an opening
fence, as the group (?:xml|owl|rdf)? does. -/
def matchTag (l : Str) : Str :=
  match l with
  | a :: b :: c :: rest =>
    if [a.toLower, b.toLower, c.toLower] ∈ tagWords then rest else l
  | _ => l

/-- Fuel-driven scanner equivalent to
re.findall of the pattern from src/src/tools.py line 410: at each opening
fence, consume an optional language tag, maximal whitespace, then the
lazily-captured block up to the next closing fence; continue after it.
The fuel (one unit per block, each block consumes at least six characters)
is always instantiated with the string length. -/
def scanBlocksF : Nat → Str → List Str
  | 0, _ => []
  | fuel + 1, s =>
    match splitAtFence s with
    | none => []
    | some (_, afterOpen) =>
      match splitAtFence ((matchTag afterOpen).dropWhile isPyWs) with
      | none => []
      | some (cap, rest) => cap :: scanBlocksF fuel rest

/-- All fenced-block captures of the content, in order.  The fuel bound
length + 1 exceeds the number of blocks (each consumes at least six
characters), so the scan always terminates naturally, never by fuel. -/
def scanBlocks (s : Str) : List Str := scanBlocksF (s.length + 1) s

/-- The four shapes an opening fence can take: bare, or tagged with one of
the three language tags of the regex. -/
def fenceTags : List Str := [[], ("xml").data, ("owl").data, ("rdf").data]

/-- Separator used both to join multiple fenced blocks and to merge fact
documents: a blank line. -/
def nl2 : Str := ("\n\n").data

/-- Lines 409-413 of src/src/tools.py: strip the content, find all fenced
blocks, and if any are present replace the content by the blocks joined
with blank lines. -/
def stripFenced (s : Str) : Str :=
  let t := pyStrip s
  match scanBlocks t with
  | [] => t
  | bs => List.intercalate nl2 bs

/-- Value object returned by every validation tool (src/src/tools.py
class ValidationResult). -/
structure ValidationResult where
  valid : Bool
  info_messages : List Str
  deriving DecidableEq

/-- The owlready2 world: the ontologies loaded so far, as (base IRI,
content) pairs in load order.  src/src/tools.py uses the module-level
get_ontology, which operates on the process-global default world. -/
abbrev OwlWorld := List (Str × Str)

/-- Base IRI hard-coded in validate_owl_ontology. -/
def baseIRI : Str := ("http://www.example.org/philosophical_implications#").data

/-- get_ontology(base_iri).load(fileobj): per owlready2's documented
contract, if an ontology with this IRI is already present in the world it
is returned as-is and load() does nothing; otherwise the content is
parsed (parse oracle) and, on success, added to the world. -/
def loadOnt (parse : Str → Except Str Unit) (w : OwlWorld) (iri content : Str) :
    Except Str OwlWorld :=
  if ∃ pr ∈ w, pr.1 = iri then .ok w
  else
    match parse content with
    | .ok _ => .ok (w ++ [(iri, content)])
    | .error e => .error e

/-- Message head of the parse-error branch (line 427). -/
def parseErrHead : Str := ("Error parsing OWL content: ").data

/-- Fixed message of the inconsistency branch (line 453). -/
def inconsistentMsg : Str := ("OWL ontology is logically inconsistent.").data

/-- Outcome of one validate_owl_ontology call: the resulting world state,
whether sync_reasoner was invoked, and the returned value. -/
structure OwlCheckOutcome where
  world : OwlWorld
  reasonerRan : Bool
  result : ValidationResult
  deriving DecidableEq

/-- The post-stripping part of validate_owl_ontology (src/src/tools.py
lines 415-456): load the content under the fixed base IRI into the
(shared) world, return a parse-error result on
OwlReadyOntologyParsingError, otherwise run the reasoner (consistency
oracle over the world) and report the verdict.  The reasoner's exception
detail is discarded (bare except on line 452). -/
def owlCheckCore (parse : Str → Except Str Unit)
    (consistent : OwlWorld → Bool) (w : OwlWorld) (content : Str) :
    OwlCheckOutcome :=
  match loadOnt parse w baseIRI content with
  | .error e =>
    { world := w, reasonerRan := false
      result := { valid := false, info_messages := [parseErrHead ++ e] } }
  | .ok w' =>
    if consistent w' then
      { world := w', reasonerRan := true
        result := { valid := true, info_messages := [] } }
    else
      { world := w', reasonerRan := true
        result := { valid := false, info_messages := [inconsistentMsg] } }

/-- src/src/tools.py lines 396-457, validate_owl_ontology: the
fence-stripping of lines 409-413 followed by the load-and-reason core. -/
def validate_owl_ontology (parse : Str → Except Str Unit)
    (consistent : OwlWorld → Bool) (w : OwlWorld) (owl_content : Str) :
    OwlCheckOutcome :=
  owlCheckCore parse consistent w (stripFenced owl_content)

/-- Report of one merge_and_check call. -/
inductive MergeReport where
  | parseError (msg : Str)
  | inconsistencyError (msg : Str)
  | success
  deriving DecidableEq

/-- Outcome of one merge_and_check call: the persisted fact store after
the call, whether the reasoner ran, and the report. -/
structure MergeOutcome where
  store : Option Str
  reasonerRan : Bool
  report : MergeReport
  deriving DecidableEq

/-- The store content committed on success: prior facts joined to the new
facts by a blank line, or just the new facts when prior is absent. -/
def mergeStoreContent (prior : Option Str) (nf : Str) : Str :=
  match prior with
  | some p => p ++ nl2 ++ nf
  | none => nf

/-- Modelled from the spec: the OntologyConsistencyChecker.merge_and_check
operation of spec section 4.3.  The repository's src/ tree only contains
the simpler variant validate_owl_ontology (no prior-fact merge and no
PersistedFactStore commit); the spec adopts the merging, committing
variant as the final design.  Step 1 (fence stripping) reuses the
embedding of src/src/tools.py lines 409-413; steps 2-5 load the ontology,
the optional prior facts and the new facts into one fresh merged world;
step 6 turns the first parse failure into a parse error that leaves the
store untouched before the reasoner runs; steps 7-9 run the reasoner and,
on success only, write the concatenated facts as the new store content -
the sole mutation the operation performs. -/
def merge_and_check (parse : Str → Except Str Unit)
    (consistent : OwlWorld → Bool) (iri ontology : Str) (prior : Option Str)
    (new_facts : Str) (store : Option Str) : MergeOutcome :=
  match parse ontology with
  | .error e => ⟨store, false, .parseError (parseErrHead ++ e)⟩
  | .ok _ =>
    match prior with
    | some p =>
      match parse p with
      | .error e => ⟨store, false, .parseError (parseErrHead ++ e)⟩
      | .ok _ =>
        match parse (stripFenced new_facts) with
        | .error e => ⟨store, false, .parseError (parseErrHead ++ e)⟩
        | .ok _ =>
          if consistent [(iri, ontology), (iri, p), (iri, stripFenced new_facts)] then
            ⟨some (mergeStoreContent (some p) (stripFenced new_facts)), true, .success⟩
          else ⟨store, true, .inconsistencyError inconsistentMsg⟩
    | none =>
      match parse (stripFenced new_facts) with
      | .error e => ⟨store, false, .parseError (parseErrHead ++ e)⟩
      | .ok _ =>
        if consistent [(iri, ontology), (iri, stripFenced new_facts)] then
          ⟨some (mergeStoreContent none (stripFenced new_facts)), true, .success⟩
        else ⟨store, true, .inconsistencyError inconsistentMsg⟩

/-- Abstract Python value produced by yaml.safe_load; only the structure
needed by the membership tests of validate_schema is retained (a mapping
keeps its key list, a sequence its string elements). -/
inductive PyVal where
  | pyNone
  | pyBool (b : Bool)
  | pyInt (n : Int)
  | pyStr (s : Str)
  | pyList (xs : List Str)
  | pyDict (keys : List Str)
  deriving DecidableEq

/-- Substring test: does the needle occur contiguously in the haystack. -/
def strHas (needle : Str) (hay : Str) : Bool :=
  match hay with
  | [] => needle.isEmpty
  | _ :: rest => needle.isPrefixOf hay || strHas needle rest

/-- Python's `k in v` test: key membership for a dict, substring test for
a str, element membership for a list; a TypeError (modelled as .error)
for None, bool and int, which are not containers. -/
def pyContains (k : Str) : PyVal → Except Unit Bool
  | .pyDict keys => .ok (keys.contains k)
  | .pyStr s => .ok (strHas k s)
  | .pyList xs => .ok (xs.contains k)
  | .pyNone => .error ()
  | .pyBool _ => .error ()
  | .pyInt _ => .error ()

/-- Uncaught Python exception escaping validate_schema. -/
inductive PyErr where
  | typeError
  deriving DecidableEq

/-- Message head for the YAML failure branch. -/
def yamlErrHead : Str := ("Schema is not valid yaml: ").data

/-- Message appended when the top-level id is missing. -/
def noIdMsg : Str := ("Schema does not have a top level id").data

/-- Message appended when the top-level name is missing. -/
def noNameMsg : Str := ("Schema does not have a top level name").data

/-- Message head for the SchemaDefinition load failure branch. -/
def loadsErrHead : Str := ("Schema does not validate: ").data

/-- The key "id". -/
def idKey : Str := ("id").data

/-- The key "name". -/
def nameKey : Str := ("name").data

/-- src/src/tools.py lines 284-319, validate_schema: yaml.safe_load the
text (oracle yamlLoad; a failure is caught and reported), test the two
top-level keys with Python `in` (which raises TypeError on non-container
values - only yaml.safe_load is inside the try block), collect one
message per missing key, and finally attempt the full SchemaDefinition
load (oracle loads; a failure is caught and reported). -/
def validate_schema (yamlLoad : Str → Except Str PyVal)
    (loads : Str → Except Str Unit) (schema_as_str : Str) :
    Except PyErr ValidationResult :=
  match yamlLoad schema_as_str with
  | .error e => .ok ⟨false, [yamlErrHead ++ e]⟩
  | .ok v =>
    match pyContains idKey v with
    | .error _ => .error .typeError
    | .ok hasId =>
      match pyContains nameKey v with
      | .error _ => .error .typeError
      | .ok hasName =>
        let msgs := (if hasId then [] else [noIdMsg]) ++
          (if hasName then [] else [noNameMsg])
        if msgs = [] then
          match loads schema_as_str with
          | .error e => .ok ⟨false, [loadsErrHead ++ e]⟩
          | .ok _ => .ok ⟨true, []⟩
        else .ok ⟨false, msgs⟩

/-- Exceptions raised by validate_then_save_schema in
src/src/linkml_agent.py: SchemaValidationError (a ModelRetry subclass),
a plain ModelRetry, an uncaught error from JsonSchemaGenerator.serialize,
or the TypeError from a non-container membership test. -/
inductive AgentErr where
  | schemaValidationError (msg : Str)
  | modelRetry (msg : Str)
  | genError (msg : Str)
  | typeError
  deriving DecidableEq

/-- The WorkingStore: a flat name-to-content map, modelled as an
association list with most recent write first. -/
abbrev WorkStore := List (Str × Str)

/-- WorkDir.write_file: (over)write one name. -/
def writeFile (wd : WorkStore) (name content : Str) : WorkStore :=
  (name, content) :: wd.filter (fun p => ¬p.1 = name)

/-- WorkDir.read_file as a query: the content stored under a name. -/
def readFile (wd : WorkStore) (name : Str) : Option Str :=
  (wd.find? (fun p => p.1 = name)).map (fun p => p.2)

/-- Message head written on the save branch. -/
def writingMsgHead : Str := ("Writing schema to ").data

/-- Outcome of one validate_then_save_schema call: the WorkingStore after
the call and either the returned value or the raised exception. -/
structure SaveOutcome where
  workdir : WorkStore
  result : Except AgentErr ValidationResult

/-- src/src/linkml_agent.py lines 65-107, validate_then_save_schema:
yaml.safe_load (failure raises SchemaValidationError), then each missing
top-level key raises immediately (id first, then name), then the
SchemaDefinition load (failure raises ModelRetry), then
JsonSchemaGenerator().serialize() (an error there escapes uncaught), and
only then, when save_to_file is truthy, the raw text is written to the
working directory and the success result is returned. -/
def validate_then_save_schema (yamlLoad : Str → Except Str PyVal)
    (loads : Str → Except Str Unit) (gen : Str → Except Str Unit)
    (workdir : WorkStore) (schema_as_str save_to_file : Str) : SaveOutcome :=
  match yamlLoad schema_as_str with
  | .error e => ⟨workdir, .error (.schemaValidationError (yamlErrHead ++ e))⟩
  | .ok v =>
    match pyContains idKey v with
    | .error _ => ⟨workdir, .error .typeError⟩
    | .ok hasId =>
      if hasId = false then ⟨workdir, .error (.schemaValidationError noIdMsg)⟩
      else
        match pyContains nameKey v with
        | .error _ => ⟨workdir, .error .typeError⟩
        | .ok hasName =>
          if hasName = false then
            ⟨workdir, .error (.schemaValidationError noNameMsg)⟩
          else
            match loads schema_as_str with
            | .error e => ⟨workdir, .error (.modelRetry (loadsErrHead ++ e))⟩
            | .ok _ =>
              match gen schema_as_str with
              | .error e => ⟨workdir, .error (.genError e)⟩
              | .ok _ =>
                if save_to_file = [] then ⟨workdir, .ok ⟨true, []⟩⟩
                else
                  ⟨writeFile workdir save_to_file schema_as_str,
                    .ok ⟨true, [writingMsgHead ++ save_to_file]⟩⟩

/-- Exception raised by validate_data. -/
inductive DataErr where
  | modelRetry (msg : Str)
  deriving DecidableEq

/-- Message head of the unknown-class branch (tools.py line 358). -/
def classNotInMsg : Str := ("Class not in schema: ").data

/-- Message head of the instance-failure branch (tools.py line 379). -/
def dataErrHead : Str := ("Data does not validate: ").data

/-- src/src/tools.py lines 322-381, validate_data, modelled from the
loop over the fact batch.  The schema compilation steps (yaml_loader,
PythonGenerator, exec) are abstracted per the generator contract into the
list `classes` of class names the generated module defines; `parseInst`
is the rdflib_loader.loads oracle applied to the prefix block joined to
the instance source by a blank line, and `report` is the rendered message
list of the linkml validate report for a loaded instance.  An undeclared
class raises ModelRetry naming it; a load/validation exception raises
ModelRetry with its text; a non-empty report returns an invalid result at
once; an exhausted batch returns a valid result. -/
def validate_data (classes : List Str)
    (parseInst : Str → Str → Except Str Str) (report : Str → List Str)
    (prefixes : Str) : List (Str × Str) → Except DataErr ValidationResult
  | [] => .ok ⟨true, []⟩
  | (cn, src) :: rest =>
    if classes.contains cn then
      match parseInst cn (prefixes ++ nl2 ++ src) with
      | .error e => .error (.modelRetry (dataErrHead ++ e))
      | .ok inst =>
        match report inst with
        | [] => validate_data classes parseInst report prefixes rest
        | m :: ms => .ok ⟨false, m :: ms⟩
    else .error (.modelRetry (classNotInMsg ++ cn))

/-- One fact-batch pair passes when its class is declared, its instance
loads, and its validation report is empty. -/
def pairPasses (classes : List Str) (parseInst : Str → Str → Except Str Str)
    (report : Str → List Str) (prefixes : Str) (p : Str × Str) : Bool :=
  classes.contains p.1 &&
    (match parseInst p.1 (prefixes ++ nl2 ++ p.2) with
     | .error _ => false
     | .ok inst => (report inst).isEmpty)

/-! ## Helper lemmas -/

/-- A write is visible to a subsequent read of the same name. -/
theorem readFile_writeFile (wd : WorkStore) (n c : Str) :
    readFile (writeFile wd n c) n = some c := by
  simp [readFile, writeFile]

/-! ## Claims -/

/-- C1: for every successful consistency check, merge_and_check writes the
new PersistedFactStore content equal to the prior facts joined to the
(fence-stripped) new facts by a blank line, or just the new facts when
prior is absent; and on any failing outcome the prior store content is
left unchanged (the commit is the sole mutation the operation models). -/
theorem c1_commit_append_only (parse : Str → Except Str Unit)
    (consistent : OwlWorld → Bool) (iri ontology : Str) (prior : Option Str)
    (new_facts : Str) (store : Option Str) :
    ((merge_and_check parse consistent iri ontology prior new_facts store).report =
        MergeReport.success →
      (merge_and_check parse consistent iri ontology prior new_facts store).store =
        some (mergeStoreContent prior (stripFenced new_facts))) ∧
    ((merge_and_check parse consistent iri ontology prior new_facts store).report ≠
        MergeReport.success →
      (merge_and_check parse consistent iri ontology prior new_facts store).store =
        store) := by
  unfold merge_and_check
  cases ho : parse ontology with
  | error e => simp [ho]
  | ok u =>
    cases prior with
    | none =>
      cases hn : parse (stripFenced new_facts) with
      | error e => simp [ho, hn]
      | ok u2 =>
        by_cases hc : consistent [(iri, ontology), (iri, stripFenced new_facts)] <;>
          simp [ho, hn, hc]
    | some p =>
      cases hp : parse p with
      | error e => simp [ho, hp]
      | ok u2 =>
        cases hn : parse (stripFenced new_facts) with
        | error e => simp [ho, hp, hn]
        | ok u3 =>
          by_cases hc :
              consistent [(iri, ontology), (iri, p), (iri, stripFenced new_facts)] <;>
            simp [ho, hp, hn, hc]

/-- Witness for C1 at a concrete input: the check succeeds and the store
holds the blank-line concatenation. -/
theorem c1_commit_append_only_witness :
    (merge_and_check (fun _ => Except.ok ()) (fun _ => true) (("i").data)
        (("onto").data) (some (("A").data)) (("B").data) none).report =
      MergeReport.success ∧
    (merge_and_check (fun _ => Except.ok ()) (fun _ => true) (("i").data)
        (("onto").data) (some (("A").data)) (("B").data) none).store =
      some ((("A").data) ++ nl2 ++ (("B").data)) :=
  ⟨rfl,
    (c1_commit_append_only (fun _ => Except.ok ()) (fun _ => true) (("i").data)
      (("onto").data) (some (("A").data)) (("B").data) none).1 rfl⟩

/-- C2 counterexample: the claim's isolation part is false.  The code uses
the module-level get_ontology, i.e. the process-global default world, and
owlready2 does not re-load an ontology already loaded under the same base
IRI; starting the very same call from a world populated by an earlier call
yields a different verdict than starting from an empty world, so state does
carry over between calls. -/
theorem c2_shared_world_counterexample :
    (validate_owl_ontology (fun _ => Except.ok ())
        (fun w => !(w.any (fun pr => decide (pr.2 = ("bad").data)))) []
        (("good").data)).result ≠
      (validate_owl_ontology (fun _ => Except.ok ())
        (fun w => !(w.any (fun pr => decide (pr.2 = ("bad").data))))
        [(baseIRI, ("bad").data)] (("good").data)).result := by
  decide

/-- C2 (amended): calling validate_owl_ontology twice with identical
content produces identical verdicts both times - the second call finds the
ontology already loaded in the world left by the first call and reasons
over the same state; however the calls share the process-global world
rather than each getting a fresh, isolated one. -/
theorem c2_idempotent_verdict (parse : Str → Except Str Unit)
    (consistent : OwlWorld → Bool) (w : OwlWorld) (content : Str) :
    (validate_owl_ontology parse consistent
        (validate_owl_ontology parse consistent w content).world content).result =
      (validate_owl_ontology parse consistent w content).result := by
  unfold validate_owl_ontology owlCheckCore loadOnt
  by_cases hw : ∃ pr ∈ w, pr.1 = baseIRI
  · by_cases hc : consistent w <;> simp [hw, hc]
  · rcases hp : parse (stripFenced content) with e | u
    · simp [hw, hp]
    · have h2 : ∃ pr ∈ w ++ [(baseIRI, stripFenced content)], pr.1 = baseIRI :=
        ⟨(baseIRI, stripFenced content), by simp⟩
      by_cases hc : consistent (w ++ [(baseIRI, stripFenced content)]) <;>
        simp [hw, hp, h2, hc]

/-- C3: an ontology input declaring a class equivalent to the complement
of itself makes the consistency check fail.  The self-complement pattern
is an abstract predicate on content and the reasoner contract hypothesis
states that any world containing such content is reported inconsistent
(the spec scopes out the reasoner's own algorithm); the base IRI must not
already be loaded, so the content actually reaches the reasoner. -/
theorem c3_self_complement_fails (parse : Str → Except Str Unit)
    (consistent : OwlWorld → Bool) (selfComp : Str → Bool) (w : OwlWorld)
    (content : Str)
    (hreasoner : ∀ w' : OwlWorld, (∃ pr ∈ w', selfComp pr.2 = true) →
      consistent w' = false)
    (hparse : parse (stripFenced content) = Except.ok ())
    (hself : selfComp (stripFenced content) = true)
    (hfresh : ¬∃ pr ∈ w, pr.1 = baseIRI) :
    (validate_owl_ontology parse consistent w content).result =
      ⟨false, [inconsistentMsg]⟩ := by
  unfold validate_owl_ontology owlCheckCore loadOnt
  have hc : consistent (w ++ [(baseIRI, stripFenced content)]) = false :=
    hreasoner _ ⟨(baseIRI, stripFenced content), by simp, hself⟩
  simp [hfresh, hparse, hc]

/-- Witness for C3 at a concrete input. -/
theorem c3_self_complement_fails_witness :
    (validate_owl_ontology (fun _ => Except.ok ())
        (fun w' => !(w'.any (fun pr => decide (pr.2 = ("inc").data))))
        [] (("inc").data)).result = ⟨false, [inconsistentMsg]⟩ :=
  c3_self_complement_fails (fun _ => Except.ok ())
    (fun w' => !(w'.any (fun pr => decide (pr.2 = ("inc").data))))
    (fun s => decide (s = ("inc").data)) [] (("inc").data)
    (by
      intro w' hmem
      obtain ⟨pr, hm, hp⟩ := hmem
      simp only [Bool.not_eq_false', List.any_eq_true]
      exact ⟨pr, hm, hp⟩)
    rfl (by decide) (by simp)

/-- C4 counterexample: the claim that the inconsistency error carries the
reasoner's explanation fragment is false - line 452 of src/src/tools.py
discards the exception and returns a fixed sentence.  Here the reasoner
reports inconsistency, yet the returned messages are exactly the constant
string and contain no contradiction-specific fragment (not even the word
equivalentTo that any explanation of this contradiction would carry). -/
theorem c4_explanation_discarded_counterexample :
    (validate_owl_ontology (fun _ => Except.ok ()) (fun _ => false) []
        (("c4onto").data)).result.valid = false ∧
    (validate_owl_ontology (fun _ => Except.ok ()) (fun _ => false) []
        (("c4onto").data)).result.info_messages = [inconsistentMsg] ∧
    ((validate_owl_ontology (fun _ => Except.ok ()) (fun _ => false) []
        (("c4onto").data)).result.info_messages.all
      (fun m => !(strHas (("equivalentTo").data) m))) = true := by
  decide

/-- C4 (amended): whenever the reasoner reports inconsistency on the
loaded world, the caller receives an invalid result whose only message is
the fixed sentence; the reasoner's explanation is discarded. -/
theorem c4_fixed_inconsistency_message (parse : Str → Except Str Unit)
    (consistent : OwlWorld → Bool) (w w' : OwlWorld) (content : Str)
    (hload : loadOnt parse w baseIRI (stripFenced content) = Except.ok w')
    (hincons : consistent w' = false) :
    (validate_owl_ontology parse consistent w content).result =
      ⟨false, [inconsistentMsg]⟩ := by
  unfold validate_owl_ontology owlCheckCore
  rw [hload]
  simp [hincons]

/-- Witness for C4's amended theorem at a concrete input. -/
theorem c4_fixed_inconsistency_message_witness :
    (validate_owl_ontology (fun _ => Except.ok ()) (fun _ => false) []
        (("w4onto").data)).result = ⟨false, [inconsistentMsg]⟩ :=
  c4_fixed_inconsistency_message (fun _ => Except.ok ()) (fun _ => false) []
    [(baseIRI, stripFenced (("w4onto").data))] (("w4onto").data) rfl rfl

/-- C5: when the new-facts content fails to parse, merge_and_check
returns a retryable parse error, the reasoner is never invoked, and the
PersistedFactStore is left unchanged. -/
theorem c5_parse_error_before_reasoning (parse : Str → Except Str Unit)
    (consistent : OwlWorld → Bool) (iri ontology : Str) (prior : Option Str)
    (new_facts : Str) (store : Option Str) (em : Str)
    (h : parse (stripFenced new_facts) = Except.error em) :
    (∃ m, (merge_and_check parse consistent iri ontology prior new_facts
        store).report = MergeReport.parseError m) ∧
    (merge_and_check parse consistent iri ontology prior new_facts
        store).reasonerRan = false ∧
    (merge_and_check parse consistent iri ontology prior new_facts
        store).store = store := by
  unfold merge_and_check
  cases ho : parse ontology with
  | error e => exact ⟨⟨parseErrHead ++ e, by simp [ho]⟩, by simp [ho], by simp [ho]⟩
  | ok u =>
    cases prior with
    | none =>
      exact ⟨⟨parseErrHead ++ em, by simp [ho, h]⟩, by simp [ho, h], by simp [ho, h]⟩
    | some p =>
      cases hp : parse p with
      | error e =>
        exact ⟨⟨parseErrHead ++ e, by simp [ho, hp]⟩, by simp [ho, hp],
          by simp [ho, hp]⟩
      | ok u2 =>
        exact ⟨⟨parseErrHead ++ em, by simp [ho, hp, h]⟩, by simp [ho, hp, h],
          by simp [ho, hp, h]⟩

/-- Witness for C5 at a concrete input. -/
theorem c5_parse_error_before_reasoning_witness :
    (∃ m, (merge_and_check
        (fun s => if s = ("bad").data then Except.error (("boom").data)
          else Except.ok ())
        (fun _ => true) (("i").data) (("onto").data) (some (("A").data))
        (("bad").data) (some (("A").data))).report =
      MergeReport.parseError m) ∧
    (merge_and_check
        (fun s => if s = ("bad").data then Except.error (("boom").data)
          else Except.ok ())
        (fun _ => true) (("i").data) (("onto").data) (some (("A").data))
        (("bad").data) (some (("A").data))).reasonerRan = false ∧
    (merge_and_check
        (fun s => if s = ("bad").data then Except.error (("boom").data)
          else Except.ok ())
        (fun _ => true) (("i").data) (("onto").data) (some (("A").data))
        (("bad").data) (some (("A").data))).store = some (("A").data) :=
  c5_parse_error_before_reasoning
    (fun s => if s = ("bad").data then Except.error (("boom").data)
      else Except.ok ())
    (fun _ => true) (("i").data) (("onto").data) (some (("A").data))
    (("bad").data) (some (("A").data)) (("boom").data) rfl

/-- C7 counterexample: the claim that schema validation enumerates every
missing top-level field is false for validate_then_save_schema
(src/src/linkml_agent.py lines 88-91): on a document whose YAML mapping
has no keys at all - so both id and name are missing - it raises after the
first check, with a diagnostic that names only id and does not even
contain the substring name. -/
theorem c7_first_field_only_counterexample :
    ((validate_then_save_schema (fun _ => Except.ok (PyVal.pyDict []))
        (fun _ => Except.ok ()) (fun _ => Except.ok ()) [] (("doc").data)
        (("schema.yaml").data)).result =
      Except.error (AgentErr.schemaValidationError noIdMsg)) ∧
    ([] : List Str).contains idKey = false ∧
    ([] : List Str).contains nameKey = false ∧
    strHas nameKey noIdMsg = false :=
  ⟨rfl, rfl, rfl, rfl⟩

/-- C7 (amended): validate_schema (src/src/tools.py lines 304-309) does
enumerate every missing top-level field: for a document parsed as a
mapping with at least one of id, name absent, the result is invalid and
carries one message per missing field, in order; validate_then_save_schema
however stops at the first missing field. -/
theorem c7_validate_schema_enumerates (yamlLoad : Str → Except Str PyVal)
    (loads : Str → Except Str Unit) (doc : Str) (keys : List Str)
    (h : yamlLoad doc = Except.ok (PyVal.pyDict keys))
    (hmiss : idKey ∉ keys ∨ nameKey ∉ keys) :
    validate_schema yamlLoad loads doc =
      Except.ok ⟨false,
        (if idKey ∈ keys then [] else [noIdMsg]) ++
          (if nameKey ∈ keys then [] else [noNameMsg])⟩ := by
  unfold validate_schema
  rw [h]
  simp only [pyContains]
  rcases hmiss with h1 | h1
  · by_cases h2 : nameKey ∈ keys <;> simp [h1, h2]
  · by_cases h2 : idKey ∈ keys <;> simp [h1, h2]

/-- Witness for C7's amended theorem: a document missing both fields gets
both diagnostics. -/
theorem c7_validate_schema_enumerates_witness :
    validate_schema (fun _ => Except.ok (PyVal.pyDict []))
      (fun _ => Except.ok ()) (("doc7").data) =
      Except.ok ⟨false, [noIdMsg, noNameMsg]⟩ :=
  c7_validate_schema_enumerates (fun _ => Except.ok (PyVal.pyDict []))
    (fun _ => Except.ok ()) (("doc7").data) [] rfl (Or.inl (by simp))

/-- C8: in validate-then-save mode (a non-empty save name), the raw schema
text is persisted into the WorkingStore under the caller-specified name
exactly when validation succeeds, and on any failure nothing is written. -/
theorem c8_save_all_or_nothing (yamlLoad : Str → Except Str PyVal)
    (loads : Str → Except Str Unit) (gen : Str → Except Str Unit)
    (wd : WorkStore) (doc nm : Str) (hname : nm ≠ []) :
    (∀ r, (validate_then_save_schema yamlLoad loads gen wd doc nm).result =
        Except.ok r →
      (validate_then_save_schema yamlLoad loads gen wd doc nm).workdir =
          writeFile wd nm doc ∧
        readFile (validate_then_save_schema yamlLoad loads gen wd doc
          nm).workdir nm = some doc) ∧
    (∀ e, (validate_then_save_schema yamlLoad loads gen wd doc nm).result =
        Except.error e →
      (validate_then_save_schema yamlLoad loads gen wd doc nm).workdir = wd) := by
  unfold validate_then_save_schema
  cases hy : yamlLoad doc with
  | error e => simp [hy]
  | ok v =>
    cases hid : pyContains idKey v with
    | error e => simp [hy, hid]
    | ok hasId =>
      by_cases h1 : hasId = false
      · simp [hy, hid, h1]
      · cases hnm : pyContains nameKey v with
        | error e => simp [hy, hid, h1, hnm]
        | ok hasName =>
          by_cases h2 : hasName = false
          · simp [hy, hid, h1, hnm, h2]
          · cases hl : loads doc with
            | error e => simp [hy, hid, h1, hnm, h2, hl]
            | ok u =>
              cases hg : gen doc with
              | error e => simp [hy, hid, h1, hnm, h2, hl, hg]
              | ok u2 =>
                simp [hy, hid, h1, hnm, h2, hl, hg, hname, readFile_writeFile]

/-- Witness for C8 at a concrete input: a successful validation writes the
raw text under the requested name. -/
theorem c8_save_all_or_nothing_witness :
    (validate_then_save_schema (fun _ => Except.ok (PyVal.pyDict [idKey, nameKey]))
        (fun _ => Except.ok ()) (fun _ => Except.ok ()) [] (("d8").data)
        (("schema.yaml").data)).workdir =
        writeFile [] (("schema.yaml").data) (("d8").data) ∧
      readFile (validate_then_save_schema
        (fun _ => Except.ok (PyVal.pyDict [idKey, nameKey]))
        (fun _ => Except.ok ()) (fun _ => Except.ok ()) [] (("d8").data)
        (("schema.yaml").data)).workdir (("schema.yaml").data) =
        some (("d8").data) :=
  (c8_save_all_or_nothing (fun _ => Except.ok (PyVal.pyDict [idKey, nameKey]))
    (fun _ => Except.ok ()) (fun _ => Except.ok ()) [] (("d8").data)
    (("schema.yaml").data) (by decide)).1
    ⟨true, [writingMsgHead ++ ("schema.yaml").data]⟩ rfl

/-- C9 counterexample: the claim is false as universally stated - when an
earlier pair of the batch fails instance validation, validate_data returns
an invalid result about that pair at once and never reaches the later pair
whose class (Ghost) is not declared, so no retryable error naming Ghost is
produced. -/
theorem c9_earlier_failure_shadows_counterexample :
    (validate_data [("Person").data] (fun _ _ => Except.ok (("inst").data))
        (fun _ => [("bounds violated").data]) []
        [((("Person").data), (("s1").data)), ((("Ghost").data), (("s2").data))] =
      Except.ok ⟨false, [("bounds violated").data]⟩) ∧
    ([("Person").data] : List Str).contains (("Ghost").data) = false :=
  ⟨rfl, rfl⟩

/-- C9 (amended): for every fact batch containing a pair whose class is
not declared in the schema, provided every earlier pair in the batch
passes (declared class, instance loads, empty validation report), the call
fails with a retryable ModelRetry whose message names that exact class. -/
theorem c9_unknown_class_named (classes : List Str)
    (parseInst : Str → Str → Except Str Str) (report : Str → List Str)
    (prefixes : Str) (pre : List (Str × Str)) (cn src : Str)
    (rest : List (Str × Str))
    (hpre : ∀ p ∈ pre, pairPasses classes parseInst report prefixes p = true)
    (hcn : cn ∉ classes) :
    validate_data classes parseInst report prefixes (pre ++ (cn, src) :: rest) =
      Except.error (DataErr.modelRetry (classNotInMsg ++ cn)) := by
  induction pre with
  | nil => simp [validate_data, hcn]
  | cons p pre ih =>
    obtain ⟨c, s⟩ := p
    have hp := hpre (c, s) (by simp)
    unfold pairPasses at hp
    rw [Bool.and_eq_true] at hp
    obtain ⟨hc1, hc2⟩ := hp
    simp only at hc1 hc2
    rw [List.cons_append]
    simp only [validate_data]
    rw [if_pos hc1]
    cases hpi : parseInst c (prefixes ++ nl2 ++ s) with
    | error e =>
      rw [hpi] at hc2
      simp at hc2
    | ok inst =>
      rw [hpi] at hc2
      simp at hc2
      simp only [hc2]
      exact ih (fun q hq => hpre q (by simp [hq]))

/-- Witness for C9's amended theorem at a concrete input. -/
theorem c9_unknown_class_named_witness :
    validate_data [("Person").data] (fun _ _ => Except.ok (("inst").data))
        (fun _ => []) []
        [((("Person").data), (("s1").data)), ((("Ghost").data), (("s2").data))] =
      Except.error (DataErr.modelRetry (classNotInMsg ++ ("Ghost").data)) :=
  c9_unknown_class_named [("Person").data] (fun _ _ => Except.ok (("inst").data))
    (fun _ => []) [] [((("Person").data), (("s1").data))] (("Ghost").data)
    (("s2").data) [] (by decide) (by decide)

/-- C10 counterexample: the claim that validate_schema always returns a
ValidationResult is false - yaml.safe_load of the empty string yields
None (documented PyYAML behavior, modelled by the oracle below), on which
the membership test of line 304 raises TypeError, which no handler
catches. -/
theorem c10_empty_input_raises_counterexample :
    validate_schema
        (fun s => if s = [] then Except.ok PyVal.pyNone
          else Except.ok (PyVal.pyDict [idKey, nameKey]))
        (fun _ => Except.ok ()) [] =
      Except.error PyErr.typeError := rfl

/-- C10 (amended): validate_schema returns a ValidationResult rather than
raising for every input whose YAML parse fails or yields a mapping; inputs
parsing to a non-container value such as None (e.g. the empty string) make
the top-level membership test raise TypeError instead. -/
theorem c10_total_on_parsed_mappings (yamlLoad : Str → Except Str PyVal)
    (loads : Str → Except Str Unit) (doc : Str)
    (h : (∃ e, yamlLoad doc = Except.error e) ∨
      (∃ keys, yamlLoad doc = Except.ok (PyVal.pyDict keys))) :
    ∃ r, validate_schema yamlLoad loads doc = Except.ok r := by
  unfold validate_schema
  rcases h with ⟨e, he⟩ | ⟨keys, hk⟩
  · rw [he]
    exact ⟨_, rfl⟩
  · rw [hk]
    simp only [pyContains]
    by_cases hid : idKey ∈ keys <;> by_cases hnm : nameKey ∈ keys <;>
      simp [hid, hnm]
    cases hl : loads doc with
    | error e => exact ⟨_, rfl⟩
    | ok u => exact ⟨_, rfl⟩

/-- Witness for C10's amended theorem at a concrete input. -/
theorem c10_total_on_parsed_mappings_witness :
    ∃ r, validate_schema (fun _ => Except.ok (PyVal.pyDict [idKey]))
        (fun _ => Except.ok ()) (("doc10").data) = Except.ok r :=
  c10_total_on_parsed_mappings (fun _ => Except.ok (PyVal.pyDict [idKey]))
    (fun _ => Except.ok ()) (("doc10").data) (Or.inr ⟨[idKey], rfl⟩)

/-! ## Fence-scanner lemmas for C6 -/

/-- The first fence after a backtick-free region is found exactly there. -/
theorem splitAtFence_skip (p q : Str) (hp : btick ∉ p) :
    splitAtFence (p ++ btick :: btick :: btick :: q) = some (p, q) := by
  induction p with
  | nil => rfl
  | cons a p ih =>
    have hp' : btick ∉ p := fun hm => hp (List.mem_cons_of_mem a hm)
    have ha : ¬a = btick := fun h => hp (by simp [h])
    have hcond :
        ¬((a :: (p ++ btick :: btick :: btick :: q)).take 3 = fence3) := by
      simp [fence3, ha]
    simp only [List.cons_append, splitAtFence, List.append_eq]
    rw [if_neg hcond, ih hp']
    rfl

/-- The scan of an empty string yields no blocks, at any fuel. -/
theorem scanBlocksF_nil (n : Nat) : scanBlocksF n [] = [] := by
  cases n <;> rfl

/-- No language tag is consumed when the text after the fence starts with
a newline. -/
theorem matchTag_newline (l : Str) : matchTag ('\n' :: l) = '\n' :: l := by
  rcases l with _ | ⟨x, _ | ⟨y, rest⟩⟩
  · rfl
  · rfl
  · simp only [matchTag]
    rw [if_neg]
    intro hmem
    simp only [tagWords, List.mem_cons, List.not_mem_nil, or_false] at hmem
    rcases hmem with h | h | h <;>
      · injection h with h1 _
        exact absurd h1 (by decide)

/-- Each of the four fence tags is consumed up to the newline. -/
theorem matchTag_tag (t : Str) (ht : t ∈ fenceTags) (r : Str) :
    matchTag (t ++ '\n' :: r) = '\n' :: r := by
  simp only [fenceTags, List.mem_cons, List.not_mem_nil, or_false] at ht
  rcases ht with h | h | h | h <;> subst h
  · exact matchTag_newline r
  · show matchTag ('x' :: 'm' :: 'l' :: '\n' :: r) = '\n' :: r
    simp only [matchTag]
    rw [if_pos (by decide)]
  · show matchTag ('o' :: 'w' :: 'l' :: '\n' :: r) = '\n' :: r
    simp only [matchTag]
    rw [if_pos (by decide)]
  · show matchTag ('r' :: 'd' :: 'f' :: '\n' :: r) = '\n' :: r
    simp only [matchTag]
    rw [if_pos (by decide)]

/-- The whitespace run after the tag stops at the first body character. -/
theorem dropWhile_newline (bc : Char) (bt x : Str) (hbc : isPyWs bc = false) :
    ('\n' :: (bc :: (bt ++ x))).dropWhile isPyWs = bc :: (bt ++ x) := by
  rw [List.dropWhile_cons, if_pos (by decide : isPyWs '\n' = true),
    List.dropWhile_cons, if_neg (by simp [hbc])]

/-- One fenced block after a backtick-free prelude is captured whole, and
the scan continues after its closing fence with one unit of fuel spent. -/
theorem scanBlocksF_block (n : Nat) (pre t : Str) (bc : Char) (bt rest : Str)
    (ht : t ∈ fenceTags) (hpre : btick ∉ pre) (hb : btick ∉ bc :: bt)
    (hbc : isPyWs bc = false) :
    scanBlocksF (n + 1)
        (pre ++ btick :: btick :: btick ::
          (t ++ '\n' :: (bc :: (bt ++ btick :: btick :: btick :: rest)))) =
      (bc :: bt) :: scanBlocksF n rest := by
  have h1 := splitAtFence_skip pre
    (t ++ '\n' :: (bc :: (bt ++ btick :: btick :: btick :: rest))) hpre
  have h2 := matchTag_tag t ht (bc :: (bt ++ btick :: btick :: btick :: rest))
  have h3 := dropWhile_newline bc bt (btick :: btick :: btick :: rest) hbc
  have h4 : splitAtFence (bc :: (bt ++ btick :: btick :: btick :: rest)) =
      some (bc :: bt, rest) := by
    simpa using splitAtFence_skip (bc :: bt) rest hb
  simp only [scanBlocksF, h1, h2, h3, h4]

/-- Two fenced blocks separated by backtick-free text are both captured,
in order. -/
theorem scanBlocksF_two (n : Nat) (t1 t2 : Str) (bc1 bc2 : Char)
    (bt1 bt2 mid : Str) (ht1 : t1 ∈ fenceTags) (ht2 : t2 ∈ fenceTags)
    (hb1 : btick ∉ bc1 :: bt1) (hb2 : btick ∉ bc2 :: bt2) (hmid : btick ∉ mid)
    (hw1 : isPyWs bc1 = false) (hw2 : isPyWs bc2 = false) :
    scanBlocksF (n + 1 + 1)
        (btick :: btick :: btick ::
          (t1 ++ '\n' :: (bc1 :: (bt1 ++ btick :: btick :: btick ::
            (mid ++ btick :: btick :: btick ::
              (t2 ++ '\n' :: (bc2 :: (bt2 ++
                btick :: btick :: btick :: ([] : Str))))))))) =
      [bc1 :: bt1, bc2 :: bt2] := by
  have b1 := scanBlocksF_block (n + 1) [] t1 bc1 bt1
    (mid ++ btick :: btick :: btick ::
      (t2 ++ '\n' :: (bc2 :: (bt2 ++ btick :: btick :: btick :: ([] : Str)))))
    ht1 (by simp) hb1 hw1
  simp only [List.nil_append] at b1
  rw [b1]
  have b2 := scanBlocksF_block n mid t2 bc2 bt2 ([] : Str) ht2 hmid hb2 hw2
  rw [b2, scanBlocksF_nil]

/-- A string that starts and ends with a backtick is left unchanged by
str.strip(). -/
theorem pyStrip_fence_ends (core : Str) :
    pyStrip (btick :: (core ++ [btick])) = btick :: (core ++ [btick]) := by
  have h1 : (btick :: (core ++ [btick])).dropWhile isPyWs =
      btick :: (core ++ [btick]) := by
    rw [List.dropWhile_cons, if_neg (by decide)]
  have h2 : (btick :: (core ++ [btick])).reverse =
      btick :: (core.reverse ++ [btick]) := by
    simp
  have h3 : (btick :: (core.reverse ++ [btick])).dropWhile isPyWs =
      btick :: (core.reverse ++ [btick]) := by
    rw [List.dropWhile_cons, if_neg (by decide)]
  unfold pyStrip
  rw [h1, h2, h3, ← h2, List.reverse_reverse]

/-- Joining a single block inserts no separator. -/
theorem intercalate_single (s a : Str) : List.intercalate s [a] = a := by
  simp [List.intercalate]

/-- Joining two blocks inserts one separator between them. -/
theorem intercalate_pair (s a b : Str) :
    List.intercalate s [a, b] = a ++ s ++ b := by
  simp [List.intercalate]

/-- C6: new_facts wrapped in triple-backtick fences (with any of the
accepted tags, including xml) has the fences stripped deterministically
before parsing: a single fenced block yields exactly its body, two fenced
blocks (separated by backtick-free text) yield their bodies concatenated
in order joined by a blank line, and the stripped content is exactly what
validate_owl_ontology hands to the loading/parsing core.  Bodies are
backtick-free and start with a non-whitespace character (the regex
whitespace run after the tag would otherwise absorb their lead). -/
theorem c6_fence_stripping (t1 t2 : Str) (ht1 : t1 ∈ fenceTags)
    (ht2 : t2 ∈ fenceTags) (bc1 bc2 : Char) (bt1 bt2 mid : Str)
    (hb1 : btick ∉ bc1 :: bt1) (hb2 : btick ∉ bc2 :: bt2) (hmid : btick ∉ mid)
    (hw1 : isPyWs bc1 = false) (hw2 : isPyWs bc2 = false) :
    stripFenced (btick :: btick :: btick ::
        (t1 ++ '\n' :: (bc1 :: (bt1 ++ btick :: btick :: btick :: ([] : Str))))) =
      bc1 :: bt1 ∧
    stripFenced (btick :: btick :: btick ::
        (t1 ++ '\n' :: (bc1 :: (bt1 ++ btick :: btick :: btick ::
          (mid ++ btick :: btick :: btick ::
            (t2 ++ '\n' :: (bc2 :: (bt2 ++
              btick :: btick :: btick :: ([] : Str))))))))) =
      (bc1 :: bt1) ++ nl2 ++ (bc2 :: bt2) ∧
    ∀ (parse : Str → Except Str Unit) (consistent : OwlWorld → Bool)
      (w : OwlWorld),
      validate_owl_ontology parse consistent w
          (btick :: btick :: btick ::
            (t1 ++ '\n' :: (bc1 :: (bt1 ++
              btick :: btick :: btick :: ([] : Str))))) =
        owlCheckCore parse consistent w (bc1 :: bt1) := by
  have hstrip1 : stripFenced (btick :: btick :: btick ::
      (t1 ++ '\n' :: (bc1 :: (bt1 ++ btick :: btick :: btick :: ([] : Str))))) =
      bc1 :: bt1 := by
    have hps : pyStrip (btick :: btick :: btick ::
        (t1 ++ '\n' :: (bc1 :: (bt1 ++ btick :: btick :: btick :: ([] : Str))))) =
        btick :: btick :: btick ::
          (t1 ++ '\n' :: (bc1 :: (bt1 ++ btick :: btick :: btick :: ([] : Str)))) := by
      have hsh : btick :: btick :: btick ::
          (t1 ++ '\n' :: (bc1 :: (bt1 ++ btick :: btick :: btick :: ([] : Str)))) =
          btick :: ((btick :: btick ::
            (t1 ++ '\n' :: (bc1 :: (bt1 ++ [btick, btick])))) ++ [btick]) := by
        simp
      rw [hsh]
      exact pyStrip_fence_ends _
    simp only [stripFenced, scanBlocks]
    rw [hps]
    have b1 := scanBlocksF_block
      ((btick :: btick :: btick ::
        (t1 ++ '\n' :: (bc1 :: (bt1 ++
          btick :: btick :: btick :: ([] : Str))))).length)
      [] t1 bc1 bt1 ([] : Str) ht1 (by simp) hb1 hw1
    simp only [List.nil_append] at b1
    rw [b1, scanBlocksF_nil]
    show List.intercalate nl2 [bc1 :: bt1] = bc1 :: bt1
    exact intercalate_single _ _
  refine ⟨hstrip1, ?_, ?_⟩
  · have hps : pyStrip (btick :: btick :: btick ::
        (t1 ++ '\n' :: (bc1 :: (bt1 ++ btick :: btick :: btick ::
          (mid ++ btick :: btick :: btick ::
            (t2 ++ '\n' :: (bc2 :: (bt2 ++
              btick :: btick :: btick :: ([] : Str))))))))) =
        btick :: btick :: btick ::
          (t1 ++ '\n' :: (bc1 :: (bt1 ++ btick :: btick :: btick ::
            (mid ++ btick :: btick :: btick ::
              (t2 ++ '\n' :: (bc2 :: (bt2 ++
                btick :: btick :: btick :: ([] : Str)))))))) := by
      have hsh : btick :: btick :: btick ::
          (t1 ++ '\n' :: (bc1 :: (bt1 ++ btick :: btick :: btick ::
            (mid ++ btick :: btick :: btick ::
              (t2 ++ '\n' :: (bc2 :: (bt2 ++
                btick :: btick :: btick :: ([] : Str)))))))) =
          btick :: ((btick :: btick ::
            (t1 ++ '\n' :: (bc1 :: (bt1 ++ btick :: btick :: btick ::
              (mid ++ btick :: btick :: btick ::
                (t2 ++ '\n' :: (bc2 :: (bt2 ++ [btick, btick])))))))) ++
            [btick]) := by
        simp
      rw [hsh]
      exact pyStrip_fence_ends _
    simp only [stripFenced, scanBlocks]
    rw [hps]
    rw [show (btick :: btick :: btick ::
        (t1 ++ '\n' :: (bc1 :: (bt1 ++ btick :: btick :: btick ::
          (mid ++ btick :: btick :: btick ::
            (t2 ++ '\n' :: (bc2 :: (bt2 ++
              btick :: btick :: btick :: ([] : Str))))))))).length =
      (btick :: btick ::
        (t1 ++ '\n' :: (bc1 :: (bt1 ++ btick :: btick :: btick ::
          (mid ++ btick :: btick :: btick ::
            (t2 ++ '\n' :: (bc2 :: (bt2 ++
              btick :: btick :: btick :: ([] : Str))))))))).length + 1 from rfl]
    rw [scanBlocksF_two _ t1 t2 bc1 bc2 bt1 bt2 mid ht1 ht2 hb1 hb2 hmid hw1 hw2]
    show List.intercalate nl2 [bc1 :: bt1, bc2 :: bt2] =
      (bc1 :: bt1) ++ nl2 ++ (bc2 :: bt2)
    exact intercalate_pair _ _ _
  · intro parse consistent w
    unfold validate_owl_ontology
    rw [hstrip1]

/-- Witness for C6 at a concrete input: an xml-tagged block and a bare
block are stripped and joined by a blank line. -/
theorem c6_fence_stripping_witness :
    stripFenced (("```xml\n<a/>```\n```\n<b/>```").data) =
      ("<a/>\n\n<b/>").data :=
  (c6_fence_stripping (("xml").data) [] (by decide) (by decide) '<' '<'
    (("a/>").data) (("b/>").data) (("\n").data) (by decide) (by decide)
    (by decide) (by decide) (by decide)).2.1

end KGInference
